import Mathlib

/-
Shallow embedding of the OCSP status registry (gigvault/ocsp,
src/internal/api/grpc_server.go). The service keeps one row per
certificate serial in the ocsp_responses table and exposes three gRPC
handlers: UpdateStatus, CheckStatus and BatchUpdateStatus.

Modelling choices:
- Timestamps are natural numbers (seconds); the SQL NOW() value is an
  explicit parameter now, and INTERVAL 24 hours is the constant
  interval24h. Each handler invocation reads one clock value.
- The database table is an association list from serial to row; the SQL
  upsert (INSERT ... ON CONFLICT (serial) DO UPDATE) is the function
  upsert, faithful to unique-key semantics.
- Database faults are injected explicitly: dbFail is the cause detail of
  a failing Exec (none means the statement succeeds), queryFail the cause
  detail of a failing QueryRow.Scan. In Go, QueryRow.Scan also returns an
  error when no row matches; scanRow reproduces that: a fault or a
  missing row both yield Except.error.
- gRPC status errors are the pair of a code and a message.
-/

namespace OCSP

abbrev Time := Nat

/-- The SQL INTERVAL of 24 hours, in seconds. -/
def interval24h : Time := 24 * 60 * 60

/-- One row of the ocsp_responses table. -/
structure OcspRow where
  status : String
  this_update : Time
  next_update : Time
  revoked_at : Option Time
  revocation_reason : String
deriving DecidableEq

/-- The ocsp_responses table: at most one row per serial, modelled as an
association list keyed by serial. -/
abbrev Store := List (String × OcspRow)

/-- SELECT ... FROM ocsp_responses WHERE serial = $1. -/
def lookupSerial (store : Store) (serial : String) : Option OcspRow :=
  match store with
  | [] => none
  | (s, row) :: rest => if s = serial then some row else lookupSerial rest serial

/-- INSERT ... ON CONFLICT (serial) DO UPDATE: replaces the row for the
serial if present, otherwise appends a new one. -/
def upsert (store : Store) (serial : String) (row : OcspRow) : Store :=
  match store with
  | [] => [(serial, row)]
  | (s, r) :: rest =>
      if s = serial then (s, row) :: rest else (s, r) :: upsert rest serial row

/-- gRPC status codes used by the handlers. -/
inductive Code where
  | invalidArgument
  | internal
deriving DecidableEq

/-- A gRPC status error: status.Error(code, message). -/
structure GrpcError where
  code : Code
  message : String
deriving DecidableEq

/-- ocsp.UpdateStatusRequest. Proto scalar strings default to the empty
string; RevokedAt is a nullable timestamp message. -/
structure UpdateStatusRequest where
  serialNumber : String
  status : String
  revokedAt : Option Time
  revocationReason : String
deriving DecidableEq

/-- ocsp.UpdateStatusResponse. -/
structure UpdateStatusResponse where
  success : Bool
  message : String
deriving DecidableEq

/-- ocsp.CheckStatusRequest. -/
structure CheckStatusRequest where
  serialNumber : String
deriving DecidableEq

/-- ocsp.CheckStatusResponse. RevokedAt is a nullable timestamp message,
left unset (none) unless the handler assigns it. -/
structure CheckStatusResponse where
  status : String
  thisUpdate : Time
  nextUpdate : Time
  revokedAt : Option Time
  revocationReason : String
deriving DecidableEq

/-- ocsp.BatchUpdateStatusResponse. -/
structure BatchUpdateStatusResponse where
  successCount : Nat
  failureCount : Nat
  errors : List String
deriving DecidableEq

/-- The defaulting step of UpdateStatus: if req.Status is empty it is set
to good before validation. -/
def effectiveStatus (s : String) : String :=
  if s = "" then "good" else s

/-- The revokedAt value bound to the upsert: the request timestamp only
when the (defaulted) status is revoked and a timestamp was supplied,
otherwise NULL. -/
def storedRevokedAt (st : String) (ra : Option Time) : Option Time :=
  if st = "revoked" ∧ ra ≠ none then ra else none

/-- Handler UpdateStatus. Validates the serial, defaults and validates
the status, then executes the upsert; a failing Exec (dbFail = some
cause) is logged and surfaced as codes.Internal with a fixed message.
Returns the gRPC result together with the table state after the call. -/
def UpdateStatus (dbFail : Option String) (now : Time)
    (req : UpdateStatusRequest) (store : Store) :
    Except GrpcError UpdateStatusResponse × Store :=
  if req.serialNumber = "" then
    (Except.error ⟨Code.invalidArgument, "serial number is required"⟩, store)
  else if effectiveStatus req.status ≠ "good" ∧ effectiveStatus req.status ≠ "revoked" ∧
      effectiveStatus req.status ≠ "unknown" then
    (Except.error ⟨Code.invalidArgument, "invalid status (must be: good, revoked, or unknown)"⟩,
     store)
  else
    match dbFail with
    | some _ => (Except.error ⟨Code.internal, "failed to update status"⟩, store)
    | none =>
        (Except.ok ⟨true, "status updated successfully"⟩,
         upsert store req.serialNumber
           ⟨effectiveStatus req.status, now, now + interval24h,
            storedRevokedAt (effectiveStatus req.status) req.revokedAt,
            req.revocationReason⟩)

/-- QueryRow.Scan of the status row: an injected fault yields its cause,
a missing row yields the pgx no-rows error; otherwise the row. -/
def scanRow (queryFail : Option String) (store : Store) (serial : String) :
    Except String OcspRow :=
  match queryFail with
  | some cause => Except.error cause
  | none =>
      match lookupSerial store serial with
      | some row => Except.ok row
      | none => Except.error "no rows in result set"

/-- Handler CheckStatus. Validates the serial, queries the row; on any
scan error (row missing or store fault) returns the synthetic success
response with status unknown; otherwise echoes the row, attaching the
revocation fields only when revoked_at is non-NULL. -/
def CheckStatus (queryFail : Option String) (now : Time)
    (req : CheckStatusRequest) (store : Store) :
    Except GrpcError CheckStatusResponse :=
  if req.serialNumber = "" then
    Except.error ⟨Code.invalidArgument, "serial number is required"⟩
  else
    match scanRow queryFail store req.serialNumber with
    | Except.error _ =>
        Except.ok ⟨"unknown", now, now + interval24h, none, ""⟩
    | Except.ok row =>
        match row.revoked_at with
        | some t =>
            Except.ok ⟨row.status, row.this_update, row.next_update, some t,
                       row.revocation_reason⟩
        | none =>
            Except.ok ⟨row.status, row.this_update, row.next_update, none, ""⟩

/-- The loop body of BatchUpdateStatus: calls UpdateStatus once per item
in input order, threading the table state, counting successes and
failures and collecting the error messages of failed items in order.
Item number i draws its injected fault from dbFails i. -/
def batchLoop (dbFails : Nat → Option String) (now : Time) (i : Nat)
    (updates : List UpdateStatusRequest) (store : Store) :
    (Nat × Nat × List String) × Store :=
  match updates with
  | [] => ((0, 0, []), store)
  | u :: rest =>
      let r := UpdateStatus (dbFails i) now u store
      let t := batchLoop dbFails now (i + 1) rest r.2
      match r.1 with
      | Except.error e => ((t.1.1, t.1.2.1 + 1, e.message :: t.1.2.2), t.2)
      | Except.ok _ => ((t.1.1 + 1, t.1.2.1, t.1.2.2), t.2)

/-- Handler BatchUpdateStatus: runs the loop and always returns a
well-formed response, never a gRPC error. -/
def BatchUpdateStatus (dbFails : Nat → Option String) (now : Time)
    (updates : List UpdateStatusRequest) (store : Store) :
    Except GrpcError BatchUpdateStatusResponse × Store :=
  let r := batchLoop dbFails now 0 updates store
  (Except.ok ⟨r.1.1, r.1.2.1, r.1.2.2⟩, r.2)

/-- One client-visible operation against the registry, with its injected
store faults and its clock reading. -/
inductive Op where
  | update (dbFail : Option String) (now : Time) (req : UpdateStatusRequest)
  | check (queryFail : Option String) (now : Time) (req : CheckStatusRequest)
  | batch (dbFails : Nat → Option String) (now : Time) (updates : List UpdateStatusRequest)

/-- The table state after one operation: CheckStatus never writes. -/
def applyOp (store : Store) : Op → Store
  | Op.update dbFail now req => (UpdateStatus dbFail now req store).2
  | Op.check _ _ _ => store
  | Op.batch dbFails now updates => (BatchUpdateStatus dbFails now updates store).2

/-- The table state after a sequence of operations. -/
def runOps (ops : List Op) (store : Store) : Store :=
  match ops with
  | [] => store
  | op :: rest => runOps rest (applyOp store op)

/-- The freshness invariant of the table: every stored row has
next_update exactly 24 hours after this_update. -/
def storeInv (store : Store) : Prop :=
  ∀ p ∈ store, p.2.next_update = p.2.this_update + interval24h

/-- Spec-side characterization of one batch item: the error message
UpdateStatus produces for the item on its own (on the empty table). The
gRPC outcome of UpdateStatus does not depend on the table state, so this
is the outcome of the item independently of its siblings. -/
def itemError (dbFail : Option String) (now : Time) (u : UpdateStatusRequest) :
    Option String :=
  match (UpdateStatus dbFail now u []).1 with
  | Except.error e => some e.message
  | Except.ok _ => none

/-- Spec-side characterization of the batch error list: the error
messages of the failed items, in input order, item number i drawing its
fault from dbFails i. -/
def itemErrors (dbFails : Nat → Option String) (now : Time) (i : Nat) :
    List UpdateStatusRequest → List String
  | [] => []
  | u :: rest =>
      match itemError (dbFails i) now u with
      | some m => m :: itemErrors dbFails now (i + 1) rest
      | none => itemErrors dbFails now (i + 1) rest

theorem lookupSerial_upsert_self (store : Store) (serial : String) (row : OcspRow) :
    lookupSerial (upsert store serial row) serial = some row := by
  induction store with
  | nil => simp [upsert, lookupSerial]
  | cons p rest ih =>
      obtain ⟨s, r⟩ := p
      by_cases h : s = serial
      · simp [upsert, lookupSerial, h]
      · simp [upsert, lookupSerial, h, ih]

theorem updateStatus_fst_indep (dbFail : Option String) (now : Time)
    (req : UpdateStatusRequest) (store store' : Store) :
    (UpdateStatus dbFail now req store).1 = (UpdateStatus dbFail now req store').1 := by
  by_cases h1 : req.serialNumber = ""
  · simp [UpdateStatus, h1]
  · by_cases h2 : effectiveStatus req.status ≠ "good" ∧ effectiveStatus req.status ≠ "revoked" ∧
        effectiveStatus req.status ≠ "unknown"
    · simp [UpdateStatus, h1, h2]
    · cases dbFail <;> simp [UpdateStatus, h1, h2]

theorem storeInv_upsert : ∀ (store : Store), storeInv store →
    ∀ (serial : String) (row : OcspRow),
    row.next_update = row.this_update + interval24h →
    storeInv (upsert store serial row)
  | [], _, serial, row, hr => by
      intro p hp
      simp [upsert] at hp
      simp [hp, hr]
  | (s, r) :: rest, hs, serial, row, hr => by
      have hrest : storeInv rest := fun p hp => hs p (List.mem_cons_of_mem _ hp)
      have ih := storeInv_upsert rest hrest serial row hr
      intro p hp
      by_cases h : s = serial
      · simp [upsert, h] at hp
        rcases hp with hp | hp
        · simp [hp, hr]
        · exact hs p (List.mem_cons_of_mem _ hp)
      · simp [upsert, h] at hp
        rcases hp with hp | hp
        · exact hs p (by simp [hp])
        · exact ih p hp

theorem storeInv_updateStatus (dbFail : Option String) (now : Time)
    (req : UpdateStatusRequest) (store : Store) (hs : storeInv store) :
    storeInv (UpdateStatus dbFail now req store).2 := by
  by_cases h1 : req.serialNumber = ""
  · simpa [UpdateStatus, h1] using hs
  · by_cases h2 : effectiveStatus req.status ≠ "good" ∧ effectiveStatus req.status ≠ "revoked" ∧
        effectiveStatus req.status ≠ "unknown"
    · simpa [UpdateStatus, h1, h2] using hs
    · cases dbFail with
      | some c => simpa [UpdateStatus, h1, h2] using hs
      | none =>
          have h := storeInv_upsert store hs req.serialNumber
            ⟨effectiveStatus req.status, now, now + interval24h,
             storedRevokedAt (effectiveStatus req.status) req.revokedAt,
             req.revocationReason⟩ rfl
          simpa [UpdateStatus, h1, h2] using h

theorem storeInv_batchLoop (dbFails : Nat → Option String) (now : Time) :
    ∀ (updates : List UpdateStatusRequest) (i : Nat) (store : Store),
      storeInv store → storeInv (batchLoop dbFails now i updates store).2
  | [], i, store, hs => by simpa [batchLoop] using hs
  | u :: rest, i, store, hs => by
      have h1 := storeInv_updateStatus (dbFails i) now u store hs
      have h2 := storeInv_batchLoop dbFails now rest (i + 1)
        (UpdateStatus (dbFails i) now u store).2 h1
      simp only [batchLoop]
      cases hr : (UpdateStatus (dbFails i) now u store).1 <;> simpa [hr] using h2

theorem storeInv_runOps : ∀ (ops : List Op) (store : Store),
    storeInv store → storeInv (runOps ops store)
  | [], store, hs => hs
  | op :: rest, store, hs => by
      have hnext : storeInv (applyOp store op) := by
        cases op with
        | update dbFail now req => exact storeInv_updateStatus dbFail now req store hs
        | check queryFail now req => exact hs
        | batch dbFails now updates =>
            simpa [applyOp, BatchUpdateStatus] using
              storeInv_batchLoop dbFails now updates 0 store hs
      exact storeInv_runOps rest (applyOp store op) hnext

theorem batchLoop_spec (dbFails : Nat → Option String) (now : Time) :
    ∀ (updates : List UpdateStatusRequest) (i : Nat) (store : Store),
      (batchLoop dbFails now i updates store).1.1 +
        (batchLoop dbFails now i updates store).1.2.1 = updates.length ∧
      (batchLoop dbFails now i updates store).1.2.2 = itemErrors dbFails now i updates ∧
      (batchLoop dbFails now i updates store).1.2.2.length =
        (batchLoop dbFails now i updates store).1.2.1
  | [], i, store => by simp [batchLoop, itemErrors]
  | u :: rest, i, store => by
      obtain ⟨ih1, ih2, ih3⟩ :=
        batchLoop_spec dbFails now rest (i + 1) (UpdateStatus (dbFails i) now u store).2
      rw [ih2] at ih3
      have hind := updateStatus_fst_indep (dbFails i) now u store []
      simp only [batchLoop, itemErrors, itemError, ← hind]
      cases hr : (UpdateStatus (dbFails i) now u store).1 <;>
        simp [hr, ih2, List.length_cons] <;> omega

/-- C1: a valid UpdateStatus call (non-empty serial, status among good,
revoked, unknown) that succeeds is followed by a CheckStatus on the same
serial returning exactly that status. -/
theorem update_then_check_returns_status (now now2 : Time)
    (req : UpdateStatusRequest) (store : Store)
    (hserial : req.serialNumber ≠ "")
    (hstatus : req.status = "good" ∨ req.status = "revoked" ∨ req.status = "unknown") :
    (∃ resp, (UpdateStatus none now req store).1 = Except.ok resp) ∧
    ∃ cresp, CheckStatus none now2 ⟨req.serialNumber⟩ (UpdateStatus none now req store).2 =
        Except.ok cresp ∧ cresp.status = req.status := by
  have hne : req.status ≠ "" := by rcases hstatus with h | h | h <;> simp [h]
  have heff : effectiveStatus req.status = req.status := by simp [effectiveStatus, hne]
  have hval : ¬(req.status ≠ "good" ∧ req.status ≠ "revoked" ∧ req.status ≠ "unknown") := by
    rcases hstatus with h | h | h <;> simp [h]
  refine ⟨⟨⟨true, "status updated successfully"⟩,
    by simp [UpdateStatus, hserial, heff, hval]⟩, ?_⟩
  have hstore : (UpdateStatus none now req store).2 =
      upsert store req.serialNumber
        ⟨req.status, now, now + interval24h, storedRevokedAt req.status req.revokedAt,
         req.revocationReason⟩ := by
    simp [UpdateStatus, hserial, hval, heff]
  rw [hstore]
  have hlook := lookupSerial_upsert_self store req.serialNumber
    ⟨req.status, now, now + interval24h, storedRevokedAt req.status req.revokedAt,
     req.revocationReason⟩
  cases hra : storedRevokedAt req.status req.revokedAt with
  | none =>
      rw [hra] at hlook
      exact ⟨⟨req.status, now, now + interval24h, none, ""⟩,
        by simp [CheckStatus, hserial, scanRow, hlook], rfl⟩
  | some t =>
      rw [hra] at hlook
      exact ⟨⟨req.status, now, now + interval24h, some t, req.revocationReason⟩,
        by simp [CheckStatus, hserial, scanRow, hlook], rfl⟩

theorem update_then_check_returns_status_witness :
    (∃ resp, (UpdateStatus none 0 ⟨"ABC123", "revoked", some 5, "key-compromise"⟩ []).1 =
        Except.ok resp) ∧
    ∃ cresp, CheckStatus none 7 ⟨"ABC123"⟩
        (UpdateStatus none 0 ⟨"ABC123", "revoked", some 5, "key-compromise"⟩ []).2 =
        Except.ok cresp ∧ cresp.status = "revoked" :=
  update_then_check_returns_status 0 7 ⟨"ABC123", "revoked", some 5, "key-compromise"⟩ []
    (by decide) (Or.inr (Or.inl rfl))

/-- C2 counterexample: with a row for serial A present and the store
query failing with a connectivity cause, CheckStatus returns a success
response (status unknown), not a server error, refuting the claim that a
persistence failure always surfaces as a generic server error. -/
theorem checkStatus_storage_failure_returns_success :
    CheckStatus (some "connection refused") 100 ⟨"A"⟩
        [("A", ⟨"good", 0, interval24h, none, ""⟩)] =
      Except.ok ⟨"unknown", 100, 100 + interval24h, none, ""⟩ := by
  simp [CheckStatus, scanRow]

/-- C2 amended: in UpdateStatus a failing store write surfaces as a
generic internal error with a fixed message, the cause withheld, for
every cause; in CheckStatus a failing store query is handled like a
missing row and yields the synthetic success response with status
unknown, not an error. -/
theorem storage_failure_surfacing :
    (∀ (cause : String) (now : Time) (req : UpdateStatusRequest) (store : Store),
        req.serialNumber ≠ "" →
        (effectiveStatus req.status = "good" ∨ effectiveStatus req.status = "revoked" ∨
         effectiveStatus req.status = "unknown") →
        UpdateStatus (some cause) now req store =
          (Except.error ⟨Code.internal, "failed to update status"⟩, store)) ∧
    (∀ (cause : String) (now : Time) (req : CheckStatusRequest) (store : Store),
        req.serialNumber ≠ "" →
        CheckStatus (some cause) now req store =
          Except.ok ⟨"unknown", now, now + interval24h, none, ""⟩) := by
  constructor
  · intro cause now req store h1 h2
    have hval : ¬(effectiveStatus req.status ≠ "good" ∧ effectiveStatus req.status ≠ "revoked" ∧
        effectiveStatus req.status ≠ "unknown") := by
      rcases h2 with h | h | h <;> simp [h]
    simp [UpdateStatus, h1, hval]
  · intro cause now req store h1
    simp [CheckStatus, scanRow, h1]

theorem storage_failure_surfacing_witness :
    UpdateStatus (some "disk full") 3 ⟨"B", "good", none, ""⟩ [] =
      (Except.error ⟨Code.internal, "failed to update status"⟩, []) ∧
    CheckStatus (some "disk full") 3 ⟨"B"⟩ [] =
      Except.ok ⟨"unknown", 3, 3 + interval24h, none, ""⟩ :=
  ⟨storage_failure_surfacing.1 "disk full" 3 ⟨"B", "good", none, ""⟩ [] (by decide)
      (Or.inl rfl),
   storage_failure_surfacing.2 "disk full" 3 ⟨"B"⟩ [] (by decide)⟩

/-- C3: for a non-empty serial with no stored row, CheckStatus succeeds
with status unknown, thisUpdate the current time, nextUpdate the current
time plus 24 hours, and no revocation fields. -/
theorem checkStatus_missing_serial_unknown (now : Time)
    (req : CheckStatusRequest) (store : Store)
    (h1 : req.serialNumber ≠ "")
    (h2 : lookupSerial store req.serialNumber = none) :
    CheckStatus none now req store =
      Except.ok ⟨"unknown", now, now + interval24h, none, ""⟩ := by
  simp [CheckStatus, scanRow, h1, h2]

theorem checkStatus_missing_serial_unknown_witness :
    CheckStatus none 42 ⟨"Z9"⟩ [] =
      Except.ok ⟨"unknown", 42, 42 + interval24h, none, ""⟩ :=
  checkStatus_missing_serial_unknown 42 ⟨"Z9"⟩ [] (by decide) rfl

/-- C4 counterexample: an UpdateStatus call with status good and a
non-empty revocation reason stores the reason with the record even
though the status is not revoked and no revocation timestamp was
supplied, refuting the claim that both fields are then stored as
absent. -/
theorem revocationReason_stored_when_not_revoked :
    lookupSerial (UpdateStatus none 0 ⟨"A", "good", none, "key-compromise"⟩ []).2 "A" =
      some ⟨"good", 0, interval24h, none, "key-compromise"⟩ ∧
    ("key-compromise" : String) ≠ "" := by
  constructor
  · rfl
  · decide

/-- C4 amended: after a successful UpdateStatus, the stored row carries
revokedAt only when the (defaulted) status is revoked and a revocation
timestamp was supplied, absent otherwise; the revocation reason is
always stored exactly as provided, even when the status is not
revoked. -/
theorem stored_revocation_fields (now : Time)
    (req : UpdateStatusRequest) (store : Store)
    (h1 : req.serialNumber ≠ "")
    (h2 : effectiveStatus req.status = "good" ∨ effectiveStatus req.status = "revoked" ∨
      effectiveStatus req.status = "unknown") :
    ∃ row, lookupSerial (UpdateStatus none now req store).2 req.serialNumber = some row ∧
      row.revoked_at =
        (if effectiveStatus req.status = "revoked" ∧ req.revokedAt ≠ none
         then req.revokedAt else none) ∧
      row.revocation_reason = req.revocationReason := by
  have hval : ¬(effectiveStatus req.status ≠ "good" ∧ effectiveStatus req.status ≠ "revoked" ∧
      effectiveStatus req.status ≠ "unknown") := by
    rcases h2 with h | h | h <;> simp [h]
  have hstore : (UpdateStatus none now req store).2 =
      upsert store req.serialNumber
        ⟨effectiveStatus req.status, now, now + interval24h,
         storedRevokedAt (effectiveStatus req.status) req.revokedAt,
         req.revocationReason⟩ := by
    simp [UpdateStatus, h1, hval]
  rw [hstore]
  exact ⟨_, lookupSerial_upsert_self store req.serialNumber _, by simp [storedRevokedAt], rfl⟩

theorem stored_revocation_fields_witness :
    ∃ row, lookupSerial (UpdateStatus none 1 ⟨"R1", "revoked", some 9, "ceased"⟩ []).2 "R1" =
        some row ∧
      row.revoked_at =
        (if effectiveStatus "revoked" = "revoked" ∧ (some 9 : Option Time) ≠ none
         then some 9 else none) ∧
      row.revocation_reason = "ceased" :=
  stored_revocation_fields 1 ⟨"R1", "revoked", some 9, "ceased"⟩ [] (by decide)
    (Or.inr (Or.inl rfl))

/-- C5: BatchUpdateStatus returns counts with successCount plus
failureCount equal to the number of updates, and its error list is, in
input order, exactly the error messages of the failed items, each item
judged independently of the others (itemErrors runs every item on its
own, so one failing item never prevents the rest from being processed);
in particular the error list has length failureCount. -/
theorem batch_counts_and_errors (dbFails : Nat → Option String) (now : Time)
    (updates : List UpdateStatusRequest) (store : Store) :
    ∃ resp : BatchUpdateStatusResponse,
      (BatchUpdateStatus dbFails now updates store).1 = Except.ok resp ∧
      resp.successCount + resp.failureCount = updates.length ∧
      resp.errors = itemErrors dbFails now 0 updates ∧
      resp.errors.length = resp.failureCount := by
  obtain ⟨h1, h2, h3⟩ := batchLoop_spec dbFails now updates 0 store
  exact ⟨_, rfl, h1, h2, h3⟩

/-- C6: UpdateStatus with an empty serial fails with the invalid
argument error and leaves the table state unchanged, whatever the fault
injection. -/
theorem updateStatus_empty_serial_invalid (dbFail : Option String) (now : Time)
    (req : UpdateStatusRequest) (store : Store)
    (h : req.serialNumber = "") :
    UpdateStatus dbFail now req store =
      (Except.error ⟨Code.invalidArgument, "serial number is required"⟩, store) := by
  simp [UpdateStatus, h]

theorem updateStatus_empty_serial_invalid_witness :
    UpdateStatus none 5 ⟨"", "good", none, ""⟩ [("A", ⟨"good", 0, interval24h, none, ""⟩)] =
      (Except.error ⟨Code.invalidArgument, "serial number is required"⟩,
       [("A", ⟨"good", 0, interval24h, none, ""⟩)]) :=
  updateStatus_empty_serial_invalid none 5 ⟨"", "good", none, ""⟩
    [("A", ⟨"good", 0, interval24h, none, ""⟩)] rfl

/-- C7: UpdateStatus with a non-empty status outside good, revoked,
unknown fails with an invalid argument error, leaves the table
unchanged, and its entire result is independent of the store fault
injection, reflecting that the store is never reached. -/
theorem updateStatus_invalid_status_rejected (dbFail : Option String) (now : Time)
    (req : UpdateStatusRequest) (store : Store)
    (h1 : req.status ≠ "")
    (h2 : req.status ≠ "good" ∧ req.status ≠ "revoked" ∧ req.status ≠ "unknown") :
    (∃ e, (UpdateStatus dbFail now req store).1 = Except.error e ∧
      e.code = Code.invalidArgument) ∧
    (UpdateStatus dbFail now req store).2 = store ∧
    UpdateStatus dbFail now req store = UpdateStatus none now req store := by
  have heff : effectiveStatus req.status = req.status := by simp [effectiveStatus, h1]
  by_cases hs : req.serialNumber = ""
  · exact ⟨⟨⟨Code.invalidArgument, "serial number is required"⟩,
      by simp [UpdateStatus, hs], rfl⟩, by simp [UpdateStatus, hs], by simp [UpdateStatus, hs]⟩
  · exact ⟨⟨⟨Code.invalidArgument, "invalid status (must be: good, revoked, or unknown)"⟩,
      by simp [UpdateStatus, hs, heff, h2.1, h2.2.1, h2.2.2], rfl⟩,
      by simp [UpdateStatus, hs, heff, h2.1, h2.2.1, h2.2.2],
      by simp [UpdateStatus, hs, heff, h2.1, h2.2.1, h2.2.2]⟩

theorem updateStatus_invalid_status_rejected_witness :
    (∃ e, (UpdateStatus (some "timeout") 2 ⟨"A", "bogus", none, ""⟩ []).1 =
        Except.error e ∧ e.code = Code.invalidArgument) ∧
    (UpdateStatus (some "timeout") 2 ⟨"A", "bogus", none, ""⟩ []).2 = [] ∧
    UpdateStatus (some "timeout") 2 ⟨"A", "bogus", none, ""⟩ [] =
      UpdateStatus none 2 ⟨"A", "bogus", none, ""⟩ [] :=
  updateStatus_invalid_status_rejected (some "timeout") 2 ⟨"A", "bogus", none, ""⟩ []
    (by decide) (by decide)

/-- C8: UpdateStatus with an empty status behaves exactly like the same
call with status good, both in its result and in the resulting table
state. -/
theorem updateStatus_empty_status_defaults_good (dbFail : Option String) (now : Time)
    (serial : String) (ra : Option Time) (rr : String) (store : Store) :
    UpdateStatus dbFail now ⟨serial, "", ra, rr⟩ store =
      UpdateStatus dbFail now ⟨serial, "good", ra, rr⟩ store := by
  simp [UpdateStatus, effectiveStatus]

/-- C9: the freshness invariant, next_update equal to this_update plus
24 hours for every stored row, holds after every sequence of operations
starting from the empty table; in particular it holds after every write
performed by UpdateStatus, directly or from a batch. -/
theorem nextUpdate_invariant (ops : List Op) : storeInv (runOps ops []) := by
  apply storeInv_runOps
  intro p hp
  simp at hp

/-- C10: BatchUpdateStatus never returns a gRPC error: it always
produces a well-formed response, and on the empty update list the
response has zero successes, zero failures and no errors. -/
theorem batch_never_errors (dbFails : Nat → Option String) (now : Time) (store : Store) :
    (BatchUpdateStatus dbFails now [] store).1 = Except.ok ⟨0, 0, []⟩ ∧
    ∀ updates, ∃ resp, (BatchUpdateStatus dbFails now updates store).1 = Except.ok resp :=
  ⟨rfl, fun _ => ⟨_, rfl⟩⟩

/-
Concrete scenarios from the specification, checked by evaluation.
-/

example :
    (BatchUpdateStatus (fun _ => none) 0
      [⟨"A", "good", none, ""⟩, ⟨"", "good", none, ""⟩, ⟨"B", "revoked", none, ""⟩] []).1 =
    Except.ok ⟨2, 1, ["serial number is required"]⟩ := rfl

example :
    (UpdateStatus none 0 ⟨"ABC123", "revoked", some 11, "key-compromise"⟩ []).2 =
    [("ABC123", ⟨"revoked", 0, interval24h, some 11, "key-compromise"⟩)] := rfl

example :
    CheckStatus none 1 ⟨"ABC123"⟩
      [("ABC123", ⟨"revoked", 0, interval24h, some 11, "key-compromise"⟩)] =
    Except.ok ⟨"revoked", 0, interval24h, some 11, "key-compromise"⟩ := rfl

end OCSP
